import Mathlib

/-
Verification of the JUCE `NamedPipe` class
(src/modules/juce_core/network/juce_NamedPipe.cpp).

The cross-platform part of the class lives in that file: the constructor,
the destructor (which calls `close`), `openExisting`, `createNewPipe`,
`isOpen` and `getName`.  The platform-specific parts (`openInternal`,
`close`, `read`, `write`) are implemented in per-platform files that are
not part of this repository snapshot, so they are modelled from the spec
(each such definition carries a doc comment saying so).

The embedding is a state-passing one: a `World` value stands for the
state of the platform pipe driver (which pipe names currently exist,
the per-name byte channel, and how many driver handles are currently
acquired), and every operation of a `NamedPipe` threads the world through.
-/

namespace Juce

/-- A driver handle: the OS-level resource identifying one endpoint's
connection to a named pipe.  It records the pipe name it is connected to
and whether this endpoint was opened as the creating/listening side. -/
structure Handle where
  hname : String
  createdPipe : Bool
deriving DecidableEq

/-- Modelled from the spec: the observable state of the platform pipe
driver.  `existing` is the set (as a list) of pipe names that currently
exist, `buffers` the per-name byte channel used by `driverRead` /
`driverWrite`, and `openHandles` counts the OS-level resources acquired
through `driverOpen` and not yet released through `driverClose`. -/
structure World where
  existing : List String
  buffers : List (String × List Nat)
  openHandles : Int
deriving DecidableEq

/-- The driver state before any pipe has been created. -/
def World.initial : World := ⟨[], [], 0⟩

/-- The byte channel currently associated with a pipe name (empty when
the name has no channel). -/
def World.getBuffer (w : World) (n : String) : List Nat :=
  match w.buffers.lookup n with
  | some b => b
  | none => []

/-- Replace the byte channel associated with a pipe name. -/
def World.setBuffer (w : World) (n : String) (b : List Nat) : World :=
  { w with buffers := (n, b) :: w.buffers.filter (fun q => q.1 ≠ n) }

/-- Modelled from the spec: the platform pipe driver operation
`driverOpen(name, asServer, mustNotExist) -> Handle | Error` (§1, §6),
which is not under src/.  Creating with `mustNotExist` fails when the
name already exists; non-exclusive creation joins an existing pipe or
creates a fresh one (with an empty channel); opening an existing pipe
succeeds exactly when the name exists.  Every success acquires one
OS-level resource. -/
def driverOpen (w : World) (name : String) (createPipe mustNotExist : Bool) :
    Option Handle × World :=
  if createPipe then
    if name ∈ w.existing then
      if mustNotExist then
        (none, w)
      else
        (some ⟨name, true⟩, { w with openHandles := w.openHandles + 1 })
    else
      (some ⟨name, true⟩,
        { existing := name :: w.existing
          buffers := (name, []) :: w.buffers.filter (fun q => q.1 ≠ name)
          openHandles := w.openHandles + 1 })
  else
    if name ∈ w.existing then
      (some ⟨name, false⟩, { w with openHandles := w.openHandles + 1 })
    else
      (none, w)

/-- The public handle a caller owns: the last configured pipe name and
the optional driver handle (`pimpl` in the C++ source). -/
structure NamedPipe where
  currentPipeName : String
  pimpl : Option Handle
deriving DecidableEq

/-- `NamedPipe::NamedPipe()`: constructed empty/closed. -/
def NamedPipe.mkNew : NamedPipe := ⟨"", none⟩

/-- `NamedPipe::isOpen` (src lines 56-60): `return pimpl != nullptr`. -/
def NamedPipe.isOpen (p : NamedPipe) : Bool := p.pimpl.isSome

/-- `NamedPipe::getName` (src lines 71-75): returns `currentPipeName`. -/
def NamedPipe.getName (p : NamedPipe) : String := p.currentPipeName

/-- Modelled from the spec: `NamedPipe::close` is platform-specific and
not under src/.  Per §4.1: if open, it cancels in-flight I/O, destroys
the handle (releasing exactly one OS-level resource) and clears the
state to closed; it is a no-op when already closed. -/
def NamedPipe.close (p : NamedPipe) (w : World) : NamedPipe × World :=
  match p.pimpl with
  | none => (p, w)
  | some _ => ({ p with pimpl := none }, { w with openHandles := w.openHandles - 1 })

/-- Modelled from the spec: `NamedPipe::openInternal` is platform-specific
and not under src/.  It delegates to the driver's open operation and, on
success, installs the returned handle; on failure the pipe is left as it
was (closed, since the public callers close it first). -/
def NamedPipe.openInternal (p : NamedPipe) (w : World) (pipeName : String)
    (createPipe mustNotExist : Bool) : Bool × NamedPipe × World :=
  match driverOpen w pipeName createPipe mustNotExist with
  | (some h, w1) => (true, { p with pimpl := some h }, w1)
  | (none, w1) => (false, p, w1)

/-- `NamedPipe::openExisting` (src lines 47-54): `close()`, then under the
write lock set `currentPipeName` and call `openInternal (pipeName, false, false)`. -/
def NamedPipe.openExisting (p : NamedPipe) (w : World) (pipeName : String) :
    Bool × NamedPipe × World :=
  let pw := p.close w
  let p1 : NamedPipe := { pw.1 with currentPipeName := pipeName }
  p1.openInternal pw.2 pipeName false false

/-- `NamedPipe::createNewPipe` (src lines 62-69): `close()`, then under the
write lock set `currentPipeName` and call `openInternal (pipeName, true, mustNotExist)`. -/
def NamedPipe.createNewPipe (p : NamedPipe) (w : World) (pipeName : String)
    (mustNotExist : Bool) : Bool × NamedPipe × World :=
  let pw := p.close w
  let p1 : NamedPipe := { pw.1 with currentPipeName := pipeName }
  p1.openInternal pw.2 pipeName true mustNotExist

/-- `NamedPipe::~NamedPipe` (src lines 42-45): the destructor calls
`close()`; after destruction only the driver state remains. -/
def NamedPipe.destroy (p : NamedPipe) (w : World) : World := (p.close w).2

/-- Outcome of a `read` call: the public return value (bytes read, or -1),
the bytes delivered into the caller's buffer, the driver state afterwards,
and how many milliseconds the call spent blocked. -/
structure ReadResult where
  retval : Int
  data : List Nat
  world : World
  blockedMs : Nat
deriving DecidableEq

/-- Outcome of a `write` call: the public return value (bytes written, or
-1), the driver state afterwards, and the milliseconds spent blocked. -/
structure WriteResult where
  retval : Int
  world : World
  blockedMs : Nat
deriving DecidableEq

/-- Modelled from the spec: `NamedPipe::read` is platform-specific and not
under src/.  Per §4.2: with no handle present it fails immediately with
`-1` (blocking for 0 ms); otherwise it blocks until at least one byte is
available or the timeout elapses (then `-1`), and returns up to `maxBytes`
bytes from the channel. -/
def NamedPipe.read (p : NamedPipe) (w : World) (maxBytes timeoutMs : Nat) :
    ReadResult :=
  match p.pimpl with
  | none => ⟨-1, [], w, 0⟩
  | some h =>
    let buf := w.getBuffer h.hname
    if buf.isEmpty then
      ⟨-1, [], w, timeoutMs⟩
    else
      let taken := buf.take maxBytes
      ⟨(taken.length : Int), taken, w.setBuffer h.hname (buf.drop maxBytes), 0⟩

/-- Modelled from the spec: `NamedPipe::write` is platform-specific and
not under src/.  Per §4.2: with no handle present it fails immediately
with `-1` (blocking for 0 ms); otherwise it appends the bytes to the
channel and returns the number of bytes written. -/
def NamedPipe.write (p : NamedPipe) (w : World) (data : List Nat)
    (timeoutMs : Nat) : WriteResult :=
  match p.pimpl with
  | none => ⟨-1, w, 0⟩
  | some h => ⟨(data.length : Int), w.setBuffer h.hname (w.getBuffer h.hname ++ data), 0⟩

/-- One public operation on a `NamedPipe` instance, for reasoning about
arbitrary call sequences. -/
inductive Op where
  | opOpenExisting (name : String)
  | opCreateNewPipe (name : String) (mustNotExist : Bool)
  | opClose
  | opRead (maxBytes timeoutMs : Nat)
  | opWrite (data : List Nat) (timeoutMs : Nat)
deriving DecidableEq

/-- Apply one public operation to an instance-and-driver state. -/
def step : NamedPipe × World → Op → NamedPipe × World
  | (p, w), Op.opOpenExisting n =>
      let r := p.openExisting w n
      (r.2.1, r.2.2)
  | (p, w), Op.opCreateNewPipe n m =>
      let r := p.createNewPipe w n m
      (r.2.1, r.2.2)
  | (p, w), Op.opClose => p.close w
  | (p, w), Op.opRead mb t =>
      let r := p.read w mb t
      (p, r.world)
  | (p, w), Op.opWrite d t =>
      let r := p.write w d t
      (p, r.world)

/-- Run a sequence of public operations from a starting state. -/
def runOps (s : NamedPipe × World) (ops : List Op) : NamedPipe × World :=
  ops.foldl step s

/-- Whenever a handle is installed, the `currentPipeName` field identifies
it (the handle's name equals the configured name). -/
def handleNameOk (p : NamedPipe) : Bool :=
  match p.pimpl with
  | none => true
  | some h => h.hname == p.currentPipeName

/-! Basic lemmas about `close`. -/

theorem close_pimpl (p : NamedPipe) (w : World) : (p.close w).1.pimpl = none := by
  cases h : p.pimpl <;> simp [NamedPipe.close, h]

theorem close_name (p : NamedPipe) (w : World) :
    (p.close w).1.currentPipeName = p.currentPipeName := by
  cases h : p.pimpl <;> simp [NamedPipe.close, h]

theorem close_existing (p : NamedPipe) (w : World) :
    (p.close w).2.existing = w.existing := by
  cases h : p.pimpl <;> simp [NamedPipe.close, h]

theorem close_buffers (p : NamedPipe) (w : World) :
    (p.close w).2.buffers = w.buffers := by
  cases h : p.pimpl <;> simp [NamedPipe.close, h]

theorem close_close (p : NamedPipe) (w : World) :
    (p.close w).1.close (p.close w).2 = p.close w := by
  cases h : p.pimpl <;> simp [NamedPipe.close, h]

/-! Lemmas about `openInternal` and the public lifecycle operations. -/

theorem openInternal_isOpen (p : NamedPipe) (w : World) (n : String) (c m : Bool)
    (hp : p.pimpl = none) :
    (p.openInternal w n c m).2.1.isOpen = (p.openInternal w n c m).1 := by
  unfold NamedPipe.openInternal
  cases hdo : driverOpen w n c m with
  | mk o w1 => cases o <;> simp [NamedPipe.isOpen, hp]

theorem openInternal_name (p : NamedPipe) (w : World) (n : String) (c m : Bool) :
    (p.openInternal w n c m).2.1.currentPipeName = p.currentPipeName := by
  unfold NamedPipe.openInternal
  cases hdo : driverOpen w n c m with
  | mk o w1 => cases o <;> simp

theorem openExisting_isOpen (p : NamedPipe) (w : World) (n : String) :
    (p.openExisting w n).2.1.isOpen = (p.openExisting w n).1 :=
  openInternal_isOpen _ _ _ _ _ (close_pimpl p w)

theorem createNewPipe_isOpen (p : NamedPipe) (w : World) (n : String) (m : Bool) :
    (p.createNewPipe w n m).2.1.isOpen = (p.createNewPipe w n m).1 :=
  openInternal_isOpen _ _ _ _ _ (close_pimpl p w)

/-- C2: after any successful `openExisting` or `createNewPipe` call,
`isOpen()` returns `true` (indeed `isOpen` always equals the Bool those
calls return); after `close()`, `isOpen()` returns `false`; and `close()`
on an already-closed instance is a no-op that does not fail (closing a
closed instance returns it and the driver state unchanged, so closing
twice equals closing once). -/
theorem isOpen_lifecycle_contract (p : NamedPipe) (w : World) (n s : String) (m : Bool) :
    (p.openExisting w n).2.1.isOpen = (p.openExisting w n).1 ∧
    (p.createNewPipe w n m).2.1.isOpen = (p.createNewPipe w n m).1 ∧
    (p.close w).1.isOpen = false ∧
    (NamedPipe.mk s none).close w = (NamedPipe.mk s none, w) ∧
    (p.close w).1.close (p.close w).2 = p.close w :=
  ⟨openExisting_isOpen p w n, createNewPipe_isOpen p w n m,
    by simp [NamedPipe.isOpen, close_pimpl], rfl, close_close p w⟩

/-- C3: after a call to `openExisting(n)` or `createNewPipe(n, m)` —
whatever the call returned — `getName()` returns `n`: the name field is
set regardless of outcome and reflects the last attempted name. -/
theorem getName_reflects_last_attempt (p : NamedPipe) (w : World) (n : String) (m : Bool) :
    (p.openExisting w n).2.1.getName = n ∧
    (p.createNewPipe w n m).2.1.getName = n :=
  ⟨openInternal_name _ _ _ _ _, openInternal_name _ _ _ _ _⟩

/-- C5: both lifecycle operations first perform an implicit close of any
currently-open handle and only then attempt the new open: running
`openExisting` or `createNewPipe` on an instance gives exactly the same
result as first closing it and then running the operation on the closed
instance; and that implicit close is idempotent and side-effect-free on
an already-closed instance (closing after a close changes nothing). -/
theorem lifecycle_ops_close_first (p : NamedPipe) (w : World) (n : String) (m : Bool) :
    p.openExisting w n = (p.close w).1.openExisting (p.close w).2 n ∧
    p.createNewPipe w n m = (p.close w).1.createNewPipe (p.close w).2 n m ∧
    (p.close w).1.close (p.close w).2 = p.close w := by
  refine ⟨?_, ?_, close_close p w⟩
  · unfold NamedPipe.openExisting
    rw [close_close]
  · unfold NamedPipe.createNewPipe
    rw [close_close]

/-! Exclusive creation. -/

theorem createNewPipe_succ_mem (a : NamedPipe) (w : World) (n : String)
    (hA : (a.createNewPipe w n true).1 = true) :
    n ∈ (a.createNewPipe w n true).2.2.existing := by
  unfold NamedPipe.createNewPipe NamedPipe.openInternal driverOpen at hA ⊢
  by_cases hmem : n ∈ (a.close w).2.existing
  · simp [hmem] at hA
  · simp [hmem]

theorem createNewPipe_exclusive_fails_of_mem (b : NamedPipe) (w : World) (n : String)
    (hmem : n ∈ w.existing) :
    (b.createNewPipe w n true).1 = false ∧
    (b.createNewPipe w n true).2.1.isOpen = false := by
  have h1 : n ∈ (b.close w).2.existing := by rw [close_existing]; exact hmem
  unfold NamedPipe.createNewPipe NamedPipe.openInternal driverOpen
  simp [h1, NamedPipe.isOpen, close_pimpl]

/-- C1: at most one exclusive creator of a name succeeds: if
`createNewPipe(n, true)` succeeds on instance `a`, then a subsequent
`createNewPipe(n, true)` on an instance `b` returns `false` and `b` then
reports `isOpen() = false`. -/
theorem exclusive_creator_unique (a b : NamedPipe) (w : World) (n : String)
    (hA : (a.createNewPipe w n true).1 = true) :
    (b.createNewPipe (a.createNewPipe w n true).2.2 n true).1 = false ∧
    (b.createNewPipe (a.createNewPipe w n true).2.2 n true).2.1.isOpen = false :=
  createNewPipe_exclusive_fails_of_mem b _ n (createNewPipe_succ_mem a w n hA)

/-- Witness for C1 at a concrete input: the first exclusive creation of
"TestPipe" in the empty driver state succeeds, and a second exclusive
creation of the same name on a fresh instance fails and stays closed. -/
theorem exclusive_creator_unique_witness :
    (NamedPipe.mkNew.createNewPipe World.initial "TestPipe" true).1 = true ∧
    ((NamedPipe.mkNew.createNewPipe
        (NamedPipe.mkNew.createNewPipe World.initial "TestPipe" true).2.2
        "TestPipe" true).1 = false ∧
      (NamedPipe.mkNew.createNewPipe
        (NamedPipe.mkNew.createNewPipe World.initial "TestPipe" true).2.2
        "TestPipe" true).2.1.isOpen = false) :=
  ⟨by decide,
    exclusive_creator_unique NamedPipe.mkNew NamedPipe.mkNew World.initial "TestPipe"
      (by decide)⟩

/-! Failed opens leave the instance closed. -/

theorem openExisting_failed_closed (p : NamedPipe) (w : World) (n : String)
    (hf : (p.openExisting w n).1 = false) :
    (p.openExisting w n).2.1.pimpl = none := by
  have h := openExisting_isOpen p w n
  rw [hf] at h
  cases hc : (p.openExisting w n).2.1.pimpl with
  | none => rfl
  | some h0 => rw [NamedPipe.isOpen, hc] at h; simp at h

theorem createNewPipe_failed_closed (p : NamedPipe) (w : World) (n : String) (m : Bool)
    (hf : (p.createNewPipe w n m).1 = false) :
    (p.createNewPipe w n m).2.1.pimpl = none := by
  have h := createNewPipe_isOpen p w n m
  rw [hf] at h
  cases hc : (p.createNewPipe w n m).2.1.pimpl with
  | none => rfl
  | some h0 => rw [NamedPipe.isOpen, hc] at h; simp at h

/-- C10: a failed `openExisting` or `createNewPipe` call on an instance
that was previously open (here: one holding handle `h0`) does not restore
the previous open state — after any failed open/create the instance is
closed (no handle present). -/
theorem failed_open_not_restored (h0 : Handle) (s : String) (w : World)
    (n : String) (m : Bool) :
    (((NamedPipe.mk s (some h0)).openExisting w n).1 = false →
      ((NamedPipe.mk s (some h0)).openExisting w n).2.1.pimpl = none) ∧
    (((NamedPipe.mk s (some h0)).createNewPipe w n m).1 = false →
      ((NamedPipe.mk s (some h0)).createNewPipe w n m).2.1.pimpl = none) :=
  ⟨openExisting_failed_closed _ w n, createNewPipe_failed_closed _ w n m⟩

/-- Witness for C10 at a concrete input: an instance currently holding a
handle on pipe "m" attempts `openExisting "n"` in a driver state where
only "m" exists; the call fails and the instance ends up with no handle. -/
theorem failed_open_not_restored_witness :
    ((NamedPipe.mk "m" (some ⟨"m", true⟩)).openExisting
        ⟨["m"], [("m", [])], 1⟩ "n").1 = false ∧
    ((NamedPipe.mk "m" (some ⟨"m", true⟩)).openExisting
        ⟨["m"], [("m", [])], 1⟩ "n").2.1.pimpl = none :=
  ⟨by decide,
    (failed_open_not_restored ⟨"m", true⟩ "m" ⟨["m"], [("m", [])], 1⟩ "n" true).1
      (by decide)⟩

/-- C6: `read` and `write` on an instance with no handle present (closed
or never opened) fail immediately with `-1`: the driver state is left
untouched, no bytes are delivered, and the call blocks for 0 ms instead
of waiting out its timeout. -/
theorem io_on_closed_fails_immediately (p : NamedPipe) (w : World)
    (maxBytes timeoutMs : Nat) (data : List Nat) (h : p.pimpl = none) :
    p.read w maxBytes timeoutMs = ⟨-1, [], w, 0⟩ ∧
    p.write w data timeoutMs = ⟨-1, w, 0⟩ := by
  constructor <;> simp [NamedPipe.read, NamedPipe.write, h]

/-- Witness for C6 at a concrete input: a freshly constructed (closed)
instance fails a 2000 ms read and a 2000 ms write immediately with `-1`. -/
theorem io_on_closed_fails_immediately_witness :
    NamedPipe.mkNew.pimpl = none ∧
    (NamedPipe.mkNew.read World.initial 4 2000 = ⟨-1, [], World.initial, 0⟩ ∧
      NamedPipe.mkNew.write World.initial [1, 2, 3] 2000 = ⟨-1, World.initial, 0⟩) :=
  ⟨rfl, io_on_closed_fails_immediately NamedPipe.mkNew World.initial 4 2000 [1, 2, 3] rfl⟩

/-- C9: destroying an instance that is still open performs the same
teardown as `close()` (the destructor calls `close`): the resulting
driver state is exactly the one `close` produces, the handle is gone,
and exactly one OS-level resource is released (the acquired-handle count
drops by one). -/
theorem destructor_closes (p : NamedPipe) (w : World) (h : p.isOpen = true) :
    p.destroy w = (p.close w).2 ∧
    (p.close w).1.pimpl = none ∧
    (p.destroy w).openHandles = w.openHandles - 1 := by
  refine ⟨rfl, close_pimpl p w, ?_⟩
  unfold NamedPipe.destroy NamedPipe.close
  cases hp : p.pimpl with
  | none => simp [NamedPipe.isOpen, hp] at h
  | some h0 => simp

/-- Witness for C9 at a concrete input: destroying an instance holding a
handle on "p" while one driver resource is acquired releases it. -/
theorem destructor_closes_witness :
    (NamedPipe.mk "p" (some ⟨"p", true⟩)).isOpen = true ∧
    ((NamedPipe.mk "p" (some ⟨"p", true⟩)).destroy ⟨["p"], [("p", [])], 1⟩ =
        ((NamedPipe.mk "p" (some ⟨"p", true⟩)).close ⟨["p"], [("p", [])], 1⟩).2 ∧
      ((NamedPipe.mk "p" (some ⟨"p", true⟩)).close ⟨["p"], [("p", [])], 1⟩).1.pimpl = none ∧
      ((NamedPipe.mk "p" (some ⟨"p", true⟩)).destroy ⟨["p"], [("p", [])], 1⟩).openHandles =
        (⟨["p"], [("p", [])], 1⟩ : World).openHandles - 1) :=
  ⟨rfl, destructor_closes (NamedPipe.mk "p" (some ⟨"p", true⟩)) ⟨["p"], [("p", [])], 1⟩ rfl⟩

/-! The handle/name invariant over arbitrary call sequences. -/

theorem openExisting_handleNameOk (p : NamedPipe) (w : World) (n : String) :
    handleNameOk (p.openExisting w n).2.1 = true := by
  unfold NamedPipe.openExisting NamedPipe.openInternal driverOpen
  by_cases hmem : n ∈ (p.close w).2.existing <;>
    simp [hmem, handleNameOk, close_pimpl]

theorem createNewPipe_handleNameOk (p : NamedPipe) (w : World) (n : String) (m : Bool) :
    handleNameOk (p.createNewPipe w n m).2.1 = true := by
  unfold NamedPipe.createNewPipe NamedPipe.openInternal driverOpen
  by_cases hmem : n ∈ (p.close w).2.existing <;> cases m <;>
    simp [hmem, handleNameOk, close_pimpl]

theorem close_handleNameOk (p : NamedPipe) (w : World) :
    handleNameOk (p.close w).1 = true := by
  simp [handleNameOk, close_pimpl]

theorem step_handleNameOk (s : NamedPipe × World) (op : Op)
    (h : handleNameOk s.1 = true) : handleNameOk (step s op).1 = true := by
  obtain ⟨p, w⟩ := s
  cases op with
  | opOpenExisting n => exact openExisting_handleNameOk p w n
  | opCreateNewPipe n m => exact createNewPipe_handleNameOk p w n m
  | opClose => exact close_handleNameOk p w
  | opRead mb t => exact h
  | opWrite d t => exact h

theorem runOps_handleNameOk (ops : List Op) :
    ∀ s : NamedPipe × World, handleNameOk s.1 = true →
      handleNameOk (runOps s ops).1 = true := by
  induction ops with
  | nil => intro s h; exact h
  | cons op rest ih =>
      intro s h
      exact ih (step s op) (step_handleNameOk s op h)

/-- C4: in every state reachable by any sequence of public operations
from a freshly constructed instance (in any driver state), `isOpen()`
returns `true` exactly when a driver handle is installed, and whenever a
handle is present the name field identifies it (the handle's pipe name
equals `currentPipeName`). -/
theorem open_iff_handle_invariant (w0 : World) (ops : List Op) :
    (runOps (NamedPipe.mkNew, w0) ops).1.isOpen
        = (runOps (NamedPipe.mkNew, w0) ops).1.pimpl.isSome ∧
    handleNameOk (runOps (NamedPipe.mkNew, w0) ops).1 = true :=
  ⟨rfl, runOps_handleNameOk ops (NamedPipe.mkNew, w0) rfl⟩

/-! The round-trip property. -/

/-- Connect two endpoints: `a` creates pipe `n` exclusively, then `b`
opens the existing pipe `n`; returns the two Booleans, the two updated
instances and the driver state afterwards. -/
def connect (a b : NamedPipe) (w : World) (n : String) :
    (Bool × Bool) × NamedPipe × NamedPipe × World :=
  let rc := a.createNewPipe w n true
  let ro := b.openExisting rc.2.2 n
  ((rc.1, ro.1), rc.2.1, ro.2.1, ro.2.2)

/-- Transfer a byte sequence: endpoint `wr` writes `S`, then endpoint
`rd` reads with the given buffer size and timeout. -/
def transfer (wr rd : NamedPipe) (w : World) (S : List Nat)
    (maxBytes timeoutW timeoutR : Nat) : WriteResult × ReadResult :=
  let r := wr.write w S timeoutW
  (r, rd.read r.world maxBytes timeoutR)

theorem getBuffer_setBuffer_self (w : World) (n : String) (b : List Nat) :
    (w.setBuffer n b).getBuffer n = b := by
  simp [World.getBuffer, World.setBuffer, List.lookup]

theorem createNewPipe_fresh (a : NamedPipe) (w : World) (n : String)
    (hn : n ∉ w.existing) :
    a.createNewPipe w n true =
      (true, ⟨n, some ⟨n, true⟩⟩,
        ⟨n :: w.existing, (n, []) :: w.buffers.filter (fun q => q.1 ≠ n),
          (a.close w).2.openHandles + 1⟩) := by
  have h1 : n ∉ (a.close w).2.existing := by rw [close_existing]; exact hn
  unfold NamedPipe.createNewPipe NamedPipe.openInternal driverOpen
  simp [h1, hn, close_existing, close_buffers]

theorem openExisting_mem (b : NamedPipe) (w : World) (n : String)
    (hn : n ∈ w.existing) :
    b.openExisting w n =
      (true, ⟨n, some ⟨n, false⟩⟩,
        ⟨(b.close w).2.existing, (b.close w).2.buffers,
          (b.close w).2.openHandles + 1⟩) := by
  have h1 : n ∈ (b.close w).2.existing := by rw [close_existing]; exact hn
  unfold NamedPipe.openExisting NamedPipe.openInternal driverOpen
  simp [h1]

theorem read_full (p : NamedPipe) (h : Handle) (w : World) (S : List Nat)
    (maxBytes timeoutMs : Nat) (hp : p.pimpl = some h)
    (hbuf : w.getBuffer h.hname = S) (hS : S ≠ []) (hmax : S.length ≤ maxBytes) :
    (p.read w maxBytes timeoutMs).retval = (S.length : Int) ∧
    (p.read w maxBytes timeoutMs).data = S := by
  unfold NamedPipe.read
  rw [hp]
  simp [hbuf, hS, List.take_of_length_le hmax]

theorem transfer_spec (wr rd : NamedPipe) (hw hr : Handle) (w : World) (S : List Nat)
    (maxBytes timeoutW timeoutR : Nat)
    (hwp : wr.pimpl = some hw) (hrp : rd.pimpl = some hr)
    (hsame : hw.hname = hr.hname) (hbuf : w.getBuffer hw.hname = [])
    (hS : S ≠ []) (hmax : S.length ≤ maxBytes) :
    (transfer wr rd w S maxBytes timeoutW timeoutR).1.retval = (S.length : Int) ∧
    (transfer wr rd w S maxBytes timeoutW timeoutR).2.retval = (S.length : Int) ∧
    (transfer wr rd w S maxBytes timeoutW timeoutR).2.data = S := by
  unfold transfer
  have hwrite : wr.write w S timeoutW =
      ⟨(S.length : Int), w.setBuffer hw.hname (w.getBuffer hw.hname ++ S), 0⟩ := by
    simp [NamedPipe.write, hwp]
  rw [hwrite]
  have hbuf2 : (w.setBuffer hw.hname (w.getBuffer hw.hname ++ S)).getBuffer hr.hname
      = S := by
    rw [← hsame, getBuffer_setBuffer_self, hbuf, List.nil_append]
  refine ⟨rfl, ?_⟩
  exact read_full rd hr _ S maxBytes timeoutR hrp hbuf2 hS hmax

theorem connect_spec (a b : NamedPipe) (w : World) (n : String)
    (hn : n ∉ w.existing) :
    (connect a b w n).1.1 = true ∧ (connect a b w n).1.2 = true ∧
    (connect a b w n).2.1.pimpl = some ⟨n, true⟩ ∧
    (connect a b w n).2.2.1.pimpl = some ⟨n, false⟩ ∧
    (connect a b w n).2.2.2.getBuffer n = [] := by
  have hA := createNewPipe_fresh a w n hn
  have hmem : n ∈ (a.createNewPipe w n true).2.2.existing := by
    rw [hA]; exact List.mem_cons_self _ _
  have hB := openExisting_mem b (a.createNewPipe w n true).2.2 n hmem
  simp only [connect]
  rw [hB, hA]
  refine ⟨rfl, rfl, rfl, rfl, ?_⟩
  simp [World.getBuffer, close_buffers, List.lookup]

/-- Concrete connect scenario used to refute the round-trip claim at the
empty byte sequence. -/
def ceConn : (Bool × Bool) × NamedPipe × NamedPipe × World :=
  connect NamedPipe.mkNew NamedPipe.mkNew World.initial "RT0"

/-- Concrete transfer of the empty byte sequence over that connection. -/
def ceXfer : WriteResult × ReadResult :=
  transfer ceConn.2.1 ceConn.2.2.1 ceConn.2.2.2 [] 16 2000 2000

/-- C7 counterexample: the round-trip claim fails as stated for the empty
byte sequence.  Instance A creates pipe "RT0" and instance B opens it
(both succeed); A writes the empty sequence (the write returns 0), but
B's subsequent read — with a large buffer and a 2000 ms timeout — returns
`-1` (it blocks until the timeout waiting for a first byte that never
comes), not `0 = len([])`. -/
theorem roundtrip_empty_counterexample :
    ceConn.1.1 = true ∧ ceConn.1.2 = true ∧
    ceXfer.1.retval = ((List.nil : List Nat).length : Int) ∧
    ceXfer.2.retval = -1 ∧ ceXfer.2.blockedMs = 2000 ∧
    ((-1 : Int) ≠ ((List.nil : List Nat).length : Int)) := by
  decide

/-- C7 amended: round-trip for every NONEMPTY byte sequence `S`: if
instance `a` creates pipe `n` (a fresh name) and instance `b` opens the
existing pipe `n`, then a write of `S` on either endpoint followed by a
read with a sufficiently large buffer (`len(S) ≤ maxBytes`) and any
timeout on the other endpoint returns exactly `len(S)` bytes whose
contents equal `S`. -/
theorem roundtrip_nonempty (a b : NamedPipe) (w : World) (n : String) (S : List Nat)
    (maxBytes timeoutW timeoutR : Nat)
    (hn : n ∉ w.existing) (hS : S ≠ []) (hmax : S.length ≤ maxBytes) :
    (connect a b w n).1.1 = true ∧ (connect a b w n).1.2 = true ∧
    ((transfer (connect a b w n).2.1 (connect a b w n).2.2.1 (connect a b w n).2.2.2
        S maxBytes timeoutW timeoutR).1.retval = (S.length : Int) ∧
      (transfer (connect a b w n).2.1 (connect a b w n).2.2.1 (connect a b w n).2.2.2
        S maxBytes timeoutW timeoutR).2.retval = (S.length : Int) ∧
      (transfer (connect a b w n).2.1 (connect a b w n).2.2.1 (connect a b w n).2.2.2
        S maxBytes timeoutW timeoutR).2.data = S) ∧
    ((transfer (connect a b w n).2.2.1 (connect a b w n).2.1 (connect a b w n).2.2.2
        S maxBytes timeoutW timeoutR).1.retval = (S.length : Int) ∧
      (transfer (connect a b w n).2.2.1 (connect a b w n).2.1 (connect a b w n).2.2.2
        S maxBytes timeoutW timeoutR).2.retval = (S.length : Int) ∧
      (transfer (connect a b w n).2.2.1 (connect a b w n).2.1 (connect a b w n).2.2.2
        S maxBytes timeoutW timeoutR).2.data = S) := by
  obtain ⟨h1, h2, h3, h4, h5⟩ := connect_spec a b w n hn
  refine ⟨h1, h2, ?_, ?_⟩
  · exact transfer_spec _ _ ⟨n, true⟩ ⟨n, false⟩ _ S maxBytes timeoutW timeoutR
      h3 h4 rfl h5 hS hmax
  · exact transfer_spec _ _ ⟨n, false⟩ ⟨n, true⟩ _ S maxBytes timeoutW timeoutR
      h4 h3 rfl h5 hS hmax

/-- Concrete nonempty payload for the round-trip witness. -/
def rtS : List Nat := [1, 2, 3]

/-- Concrete connect scenario for the round-trip witness. -/
def rtConn : (Bool × Bool) × NamedPipe × NamedPipe × World :=
  connect NamedPipe.mkNew NamedPipe.mkNew World.initial "RT"

/-- Creator writes, opener reads. -/
def rtFwd : WriteResult × ReadResult :=
  transfer rtConn.2.1 rtConn.2.2.1 rtConn.2.2.2 rtS 8 2000 2000

/-- Opener writes, creator reads. -/
def rtBwd : WriteResult × ReadResult :=
  transfer rtConn.2.2.1 rtConn.2.1 rtConn.2.2.2 rtS 8 2000 2000

/-- Witness for the amended C7 at a concrete input: pipe "RT", payload
`[1, 2, 3]`, buffer size 8, timeouts 2000 ms, in the empty driver state. -/
theorem roundtrip_nonempty_witness :
    ("RT" ∉ World.initial.existing ∧ rtS ≠ [] ∧ rtS.length ≤ 8) ∧
    (rtConn.1.1 = true ∧ rtConn.1.2 = true ∧
      (rtFwd.1.retval = (rtS.length : Int) ∧ rtFwd.2.retval = (rtS.length : Int) ∧
        rtFwd.2.data = rtS) ∧
      (rtBwd.1.retval = (rtS.length : Int) ∧ rtBwd.2.retval = (rtS.length : Int) ∧
        rtBwd.2.data = rtS)) :=
  ⟨⟨by decide, by decide, by decide⟩,
    roundtrip_nonempty NamedPipe.mkNew NamedPipe.mkNew World.initial "RT" rtS 8 2000 2000
      (by decide) (by decide) (by decide)⟩

end Juce
